import Mathlib

/-!
Shallow embedding of the `Response` class of the stonemjs/http repository
(`src/Response.mjs`), together with theorems checking the natural-language
specification of the repository against it.

Modelling conventions:
* JavaScript run-time values that can appear as response content or
  option values are modelled by the inductive type `JSValue`; `typeof`
  is modelled by `jsTypeof` (note that in JavaScript `typeof null` is
  `"object"`).
* Thrown JavaScript exceptions are modelled by the `JSError` type;
  methods that can throw return `Except JSError _`.  `setStatus` is
  modelled as returning the mutated object state together with an
  optional error, because the source assigns `this._statusCode` before
  validating it, and a thrown exception does not roll field assignments
  back.
* The `Headers` container used by the source (the WHATWG fetch `Headers`
  class) is modelled as an association list whose keys are stored
  lower-cased; `Headers.get` on an absent name returns `null`, modelled
  by `Option`.
* Tables coming from the dependencies `statuses` (the status-text
  registry) and `send`'s bundled `mime` (media-type lookup and the
  media-type-to-charset rule) are transcribed as Lean functions.
-/

/-- Model of a JavaScript run-time value, as far as the `Response` code
inspects one: content values, header values before coercion, cache
option values.  `vDate` models a `Date` object and carries the string
its `toUTCString` method renders (the code never inspects any other
aspect of a date except via `getTime`, whose misuse on header strings is
modelled separately).  `vBuf` models a binary `Buffer` as its byte
list. -/
inductive JSValue where
  | vNull
  | vUndefined
  | vStr (s : String)
  | vNum (n : Int)
  | vBool (b : Bool)
  | vObj (fields : List (String × JSValue))
  | vArr (elems : List JSValue)
  | vBuf (bytes : List Nat)
  | vDate (utc : String)
deriving Repr

/-- JavaScript `typeof` on a modelled value.  `typeof null` is
`"object"`, and a `Buffer` and a `Date` are objects. -/
def jsTypeof : JSValue → String
  | .vNull => "object"
  | .vUndefined => "undefined"
  | .vStr _ => "string"
  | .vNum _ => "number"
  | .vBool _ => "boolean"
  | .vObj _ => "object"
  | .vArr _ => "object"
  | .vBuf _ => "object"
  | .vDate _ => "object"

/-- Model of `Buffer.isBuffer`. -/
def isBuffer : JSValue → Bool
  | .vBuf _ => true
  | _ => false

/-- JavaScript truthiness of a modelled value. -/
def jsTruthy : JSValue → Bool
  | .vNull => false
  | .vUndefined => false
  | .vStr s => s ≠ ""
  | .vNum n => n ≠ 0
  | .vBool b => b
  | .vObj _ => true
  | .vArr _ => true
  | .vBuf _ => true
  | .vDate _ => true

/-- Model of a thrown JavaScript exception.  `invalidArgument` models the
repository's `InvalidArgumentException` (the spec's ValidationError),
`logicError` its `LogicException`, and `typeError` a native `TypeError`
raised by the JavaScript runtime itself. -/
inductive JSError where
  | invalidArgument (msg : String)
  | logicError (msg : String)
  | typeError (msg : String)
deriving Repr, DecidableEq

/-- Whitespace class of the JavaScript regular-expression escape `\s`
(restricted to the ASCII whitespace characters). -/
def jsWhitespace (c : Char) : Bool :=
  c = ' ' || c = '\t' || c = '\n' || c = '\r' || c = '\x0b' || c = '\x0c'

/-- Lower-casing of a string, character by character (the behavior of
JavaScript `toLowerCase` on ASCII header names and charset names). -/
def jsStrLower (s : String) : String :=
  ⟨s.data.map Char.toLower⟩

/-- JavaScript `String.prototype.trim`, over the modelled whitespace
class. -/
def jsTrim (s : String) : String :=
  ⟨((s.data.dropWhile jsWhitespace).reverse.dropWhile jsWhitespace).reverse⟩

/-- JavaScript `String.prototype.startsWith`. -/
def strStartsWith (s p : String) : Bool :=
  p.data.isPrefixOf s.data

/-- Model of the WHATWG `Headers` container the source stores in
`this._headers`: an association list with lower-cased keys. -/
def HeadersModel := List (String × String)

instance : DecidableEq HeadersModel := by
  unfold HeadersModel
  infer_instance

/-- Headers.set: replace the entry for the (case-insensitively matched)
name in place, or append a new entry. -/
def hset : HeadersModel → String → String → HeadersModel
  | [], k, v => [(jsStrLower k, v)]
  | (k', v') :: rest, k, v =>
    if k' = jsStrLower k then (k', v) :: rest else (k', v') :: hset rest k v

/-- Headers.get, `null` modelled as `none`. -/
def hget (h : HeadersModel) (k : String) : Option String :=
  (h.find? (fun e => e.1 = jsStrLower k)).map (fun e => e.2)

/-- Headers.has. -/
def hhas (h : HeadersModel) (k : String) : Bool :=
  (h.find? (fun e => e.1 = jsStrLower k)).isSome

/-- Headers.delete. -/
def hdelete (h : HeadersModel) (k : String) : HeadersModel :=
  h.filter (fun e => e.1 ≠ jsStrLower k)

/-- Helper for `charsetRegexpTest`: after a `;` was consumed, match
`\s*charset\s*=`. -/
def matchCharsetAt (cs : List Char) : Bool :=
  let cs1 := cs.dropWhile jsWhitespace
  if "charset".toList.isPrefixOf cs1 then
    match (cs1.drop 7).dropWhile jsWhitespace with
    | '=' :: _ => true
    | _ => false
  else false

/-- Test of the source's private regular expression
`/;\s*charset\s*=/` against a character list: somewhere in the input a
`;` is followed (after optional whitespace) by `charset`, optional
whitespace, and `=`. -/
def charsetRegexpTest : List Char → Bool
  | [] => false
  | ';' :: rest => matchCharsetAt rest || charsetRegexpTest rest
  | _ :: rest => charsetRegexpTest rest

/-- String form of `charsetRegexpTest`, modelling
`this.#charsetRegExp.test(value)`. -/
def containsCharsetFragment (s : String) : Bool :=
  charsetRegexpTest s.data

/-- Media-type-to-charset table `mime.charsets.lookup` of the `mime`
package bundled with `send`: `text/*` and
`application/javascript`/`application/json` map to `UTF-8`, everything
else to the fallback (here `undefined`, i.e. `none`). -/
def charsetLookup (mt : String) : Option String :=
  if strStartsWith mt "text/" || strStartsWith mt "application/javascript"
      || strStartsWith mt "application/json" then
    some "UTF-8"
  else
    none

/-- Media-type part of a Content-Type value:
`value.split(';').shift().trim()` — the characters before the first
`;`, trimmed. -/
def mediaTypePart (v : String) : String :=
  jsTrim ⟨v.data.takeWhile (fun c => c ≠ ';')⟩

/-- Extension-to-media-type lookup `mime.lookup` of the `mime` package
bundled with `send`, restricted to the extensions the source passes it
(`html`, `json`, `bin`, `txt`); unknown extensions fall back to the
package's default type `application/octet-stream`. -/
def mimeLookup : String → String
  | "html" => "text/html"
  | "json" => "application/json"
  | "txt" => "text/plain"
  | "bin" => "application/octet-stream"
  | _ => "application/octet-stream"

/-- Header value after the coercion on the first line of
`Response.setHeader`
(`value = Array.isArray(value) ? value.map(String) : String(value)`):
either a single string or an array of strings. -/
inductive HVal where
  | str (s : String)
  | arr (ss : List String)
deriving Repr, DecidableEq

/-- Rendering of a coerced header value as the WHATWG `Headers.set`
stores it (an array is joined with commas by its string coercion). -/
def renderHVal : HVal → String
  | .str s => s
  | .arr ss => String.intercalate "," ss

/-- Status-text registry `statuses.message` of the `statuses` npm package
(version 2.x), used as `Response.STATUS_TEXTS`. -/
def statusTexts : Int → Option String
  | 100 => some "Continue"
  | 101 => some "Switching Protocols"
  | 102 => some "Processing"
  | 103 => some "Early Hints"
  | 200 => some "OK"
  | 201 => some "Created"
  | 202 => some "Accepted"
  | 203 => some "Non-Authoritative Information"
  | 204 => some "No Content"
  | 205 => some "Reset Content"
  | 206 => some "Partial Content"
  | 207 => some "Multi-Status"
  | 208 => some "Already Reported"
  | 226 => some "IM Used"
  | 300 => some "Multiple Choices"
  | 301 => some "Moved Permanently"
  | 302 => some "Found"
  | 303 => some "See Other"
  | 304 => some "Not Modified"
  | 305 => some "Use Proxy"
  | 306 => some "(Unused)"
  | 307 => some "Temporary Redirect"
  | 308 => some "Permanent Redirect"
  | 400 => some "Bad Request"
  | 401 => some "Unauthorized"
  | 402 => some "Payment Required"
  | 403 => some "Forbidden"
  | 404 => some "Not Found"
  | 405 => some "Method Not Allowed"
  | 406 => some "Not Acceptable"
  | 407 => some "Proxy Authentication Required"
  | 408 => some "Request Timeout"
  | 409 => some "Conflict"
  | 410 => some "Gone"
  | 411 => some "Length Required"
  | 412 => some "Precondition Failed"
  | 413 => some "Payload Too Large"
  | 414 => some "URI Too Long"
  | 415 => some "Unsupported Media Type"
  | 416 => some "Range Not Satisfiable"
  | 417 => some "Expectation Failed"
  | 418 => some "I'm a Teapot"
  | 421 => some "Misdirected Request"
  | 422 => some "Unprocessable Entity"
  | 423 => some "Locked"
  | 424 => some "Failed Dependency"
  | 425 => some "Too Early"
  | 426 => some "Upgrade Required"
  | 428 => some "Precondition Required"
  | 429 => some "Too Many Requests"
  | 431 => some "Request Header Fields Too Large"
  | 451 => some "Unavailable For Legal Reasons"
  | 500 => some "Internal Server Error"
  | 501 => some "Not Implemented"
  | 502 => some "Bad Gateway"
  | 503 => some "Service Unavailable"
  | 504 => some "Gateway Timeout"
  | 505 => some "HTTP Version Not Supported"
  | 506 => some "Variant Also Negotiates"
  | 507 => some "Insufficient Storage"
  | 508 => some "Loop Detected"
  | 509 => some "Bandwidth Limit Exceeded"
  | 510 => some "Not Extended"
  | 511 => some "Network Authentication Required"
  | _ => none

/-- Value stored in the `#headerCacheControl` map for one directive: the
`true` presence flag or an explicit value (the source checks
`value === true` when serializing). -/
inductive CCVal where
  | flag
  | num (n : Int)
  | str (s : String)
deriving Repr, DecidableEq

/-- String coercion of a directive value, as JavaScript template-literal
interpolation would render it. -/
def ccValToString : CCVal → String
  | .flag => "true"
  | .num n => toString n
  | .str s => s

/-- Model of one cookie of the response's CookieJar.  Modelled from the
spec: the `CookieCollection` source is not part of the provided files;
the spec describes a jar of cookies with a global secure toggle,
serialized into Set-Cookie on every mutation. -/
structure CookieM where
  name : String
  value : String
  secure : Bool
deriving Repr, DecidableEq

/-- Modelled from the spec: serialization of one cookie for the
Set-Cookie header (`CookieCollection.all(true)`); only the name/value
pair and the Secure attribute are modelled. -/
def cookieSerialize (c : CookieM) : String :=
  c.name ++ "=" ++ c.value ++ (if c.secure then "; Secure" else "")

/-- State of a `Response` object: its fields `_statusCode`,
`_statusMessage`, `_headers`, `_content`, `#originalContent`,
`_charset`, `_version`, the `#headerCacheControl` map (absent until the
first directive is added — the source leaves the private field
`undefined`), and the cookie jar. -/
structure ResponseState where
  statusCode : Int
  statusMessage : String
  headers : HeadersModel
  content : JSValue
  originalContent : JSValue
  charset : Option String
  version : String
  cacheControl : Option (List (String × CCVal))
  cookies : List CookieM

/-- Response.isInvalid: status code outside [100, 600). -/
def isInvalid (r : ResponseState) : Bool :=
  r.statusCode < 100 || r.statusCode ≥ 600

/-- Response.setStatus.  The source first assigns `this._statusCode = code`
and only then validates, throwing `InvalidArgumentException` if the code
is invalid; since a JavaScript throw does not undo field assignments,
the model returns the mutated state together with the optional error. -/
def setStatus (r : ResponseState) (code : Int) (text : Option String) :
    ResponseState × Option JSError :=
  let r' := { r with statusCode := code }
  if isInvalid r' then
    (r', some (.invalidArgument
      ("The HTTP status code \"" ++ toString code ++ "\" is not valid.")))
  else
    match text with
    | none =>
      ({ r' with statusMessage := (statusTexts code).getD "unknown status" }, none)
    | some t => ({ r' with statusMessage := t }, none)

/-- Response.setStatus as an exception-style computation, for chaining in
contexts that discard the state on a throw. -/
def setStatusE (r : ResponseState) (code : Int) (text : Option String) :
    Except JSError ResponseState :=
  match setStatus r code text with
  | (_, some e) => .error e
  | (r', none) => .ok r'

/-- Response.setHeader.  The header value has already been coerced by
`value = Array.isArray(value) ? value.map(String) : String(value)`.
For the Content-Type header an array value raises
`InvalidArgumentException`; a string value without a charset fragment
gets a charset looked up for its media-type part (the value before the
first `;`, trimmed) and, when one is found, appended lower-cased, the
`_charset` field being assigned the lookup result in either case. -/
def setHeader (r : ResponseState) (key : String) (value : HVal) :
    Except JSError ResponseState :=
  if jsStrLower key = "content-type" then
    match value with
    | .arr _ => .error (.invalidArgument "Content-Type cannot be set to an Array")
    | .str v =>
      if containsCharsetFragment v then
        .ok { r with headers := hset r.headers key v }
      else
        let cs := charsetLookup (mediaTypePart v)
        let v' := match cs with
          | some c => v ++ "; charset=" ++ jsStrLower c
          | none => v
        .ok { r with charset := cs, headers := hset r.headers key v' }
  else
    .ok { r with headers := hset r.headers key (renderHVal value) }

/-- Response.getHeader with fallback `null`. -/
def getHeader (r : ResponseState) (key : String) : Option String :=
  hget r.headers key

/-- Response.removeHeader on a list of names (the source wraps a single
name into a one-element array). -/
def removeHeader (r : ResponseState) (keys : List String) : ResponseState :=
  { r with headers := keys.foldl (fun h k => hdelete h k) r.headers }

/-- Base response state used to instantiate theorems on concrete inputs. -/
def baseState : ResponseState :=
  { statusCode := 200
    statusMessage := "OK"
    headers := []
    content := .vStr ""
    originalContent := .vStr ""
    charset := none
    version := "1.0"
    cacheControl := none
    cookies := [] }

/-- Hexadecimal digit rendering for JSON control-character escapes. -/
def hexDigit (n : Nat) : Char :=
  if n < 10 then Char.ofNat (48 + n) else Char.ofNat (87 + n)

/-- JSON string escaping of one character, as `JSON.stringify` performs
it. -/
def jsonEscapeChar (c : Char) : String :=
  if c = '"' then "\\\""
  else if c = '\\' then "\\\\"
  else if c = '\x08' then "\\b"
  else if c = '\t' then "\\t"
  else if c = '\n' then "\\n"
  else if c = '\x0c' then "\\f"
  else if c = '\r' then "\\r"
  else if c.toNat < 32 then
    "\\u00" ++ String.mk [hexDigit (c.toNat / 16), hexDigit (c.toNat % 16)]
  else String.mk [c]

/-- JSON rendering of a string: quoted and escaped. -/
def jsonQuote (s : String) : String :=
  "\"" ++ String.join (s.data.map jsonEscapeChar) ++ "\""

mutual

/-- Model of `JSON.stringify` called with the value alone: `null`
renders as "null", a top-level `undefined` yields `undefined` (`none`),
a `Buffer` serializes through its `toJSON` method, and `undefined`
object-field values are dropped while `undefined` array elements render
as "null". -/
def jsonStringify : JSValue → Option String
  | .vNull => some "null"
  | .vUndefined => none
  | .vStr s => some (jsonQuote s)
  | .vNum n => some (toString n)
  | .vBool b => some (if b then "true" else "false")
  | .vDate u => some (jsonQuote u)
  | .vBuf bs =>
    some ("\x7b\"type\":\"Buffer\",\"data\":[" ++
      String.intercalate "," (bs.map toString) ++ "]\x7d")
  | .vArr es => some ("[" ++ String.intercalate "," (jsonArrElems es) ++ "]")
  | .vObj fs => some ("\x7b" ++ String.intercalate "," (jsonObjFields fs) ++ "\x7d")

/-- JSON rendering of the elements of an array value. -/
def jsonArrElems : List JSValue → List String
  | [] => []
  | v :: rest => ((jsonStringify v).getD "null") :: jsonArrElems rest

/-- JSON rendering of the fields of an object value. -/
def jsonObjFields : List (String × JSValue) → List String
  | [] => []
  | (k, v) :: rest =>
    match jsonStringify v with
    | none => jsonObjFields rest
    | some s => (jsonQuote k ++ ":" ++ s) :: jsonObjFields rest

end

/-- HTML-unsafe-character escaping of `Response.stringify`: `<`, `>` and
`&` become their `<`/`>`/`&` escapes. -/
def escapeHtmlChar (c : Char) : String :=
  if c = '<' then "\\u003c"
  else if c = '>' then "\\u003e"
  else if c = '&' then "\\u0026"
  else String.mk [c]

/-- HTML-unsafe-character escaping applied to a whole JSON text. -/
def escapeHtmlJson (s : String) : String :=
  String.join (s.data.map escapeHtmlChar)

/-- Response.stringify (taken from Express).  The `replacer` and
`spaces` arguments come from the external configuration keys
`http.json.replacer` and `http.json.spaces` and are modelled at their
default (absent), so `JSON.stringify` is invoked with the value alone;
when `escape` is set and the result is a string, the HTML-unsafe
characters are escaped. -/
def stringify (value : JSValue) (escape : Bool) : Option String :=
  let json := jsonStringify value
  if escape then json.map escapeHtmlJson else json

/-- Resolution of `this.app.get('http.etag.function', this.#defaultEtagFn)`
combined with the `typeof etagFn === 'function'` test: either a function
from (content, charset) to an ETag string (the built-in default — a
sha256/base64 digest over node:crypto, outside the repository — or a
configured custom function), or a configured non-function value, which
disables generation. -/
inductive EtagSetting where
  | fn (f : JSValue → Option String → String)
  | notFn

/-- Read-only application configuration consumed by the response code
(spec §6): the `http.json.escape` flag and the resolved ETag-generation
setting.  The JSON replacer and spaces options are modelled at their
default (absent). -/
structure AppConfig where
  jsonEscape : Bool
  etagResolved : EtagSetting

/-- Response._shouldBeJson: not a buffer, and of run-time shape object,
number or boolean. -/
def shouldBeJson (content : JSValue) : Bool :=
  !isBuffer content && ["object", "number", "boolean"].contains (jsTypeof content)

/-- Response._morphToJson: evaluates `this.app` (throwing a
LogicException when no application resolver is set) and the JSON
options inside a try block whose catch rethrows any error as an
InvalidArgumentException, then calls `stringify`. -/
def morphToJson (app : Option AppConfig) (content : JSValue) :
    Except JSError JSValue :=
  match app with
  | none => .error (.invalidArgument "Must set an Application resolver.")
  | some a =>
    match stringify content a.jsonEscape with
    | some s => .ok (.vStr s)
    | none => .ok .vUndefined

/-- Response.setContent: a value of shape object/number/boolean that is
not a buffer is serialized to JSON (note that `typeof null` is
`"object"`, so `null` takes this branch); any other value is stored
verbatim, with `value ?? ''` turning `null`/`undefined` into the empty
string; the pre-serialization value is kept in `#originalContent`. -/
def setContent (app : Option AppConfig) (r : ResponseState) (v : JSValue) :
    Except JSError ResponseState :=
  if shouldBeJson v then
    match morphToJson app v with
    | .error e => .error e
    | .ok c => .ok { r with content := c, originalContent := v }
  else
    let c := match v with
      | .vNull => JSValue.vStr ""
      | .vUndefined => JSValue.vStr ""
      | other => other
    .ok { r with content := c, originalContent := v }

/-- Initial field values of a response object before the constructor
body runs (JavaScript class fields start out `undefined`; the status
fields are assigned by the immediate `setStatus` call, and the model
raises the very TypeError the real constructor raises before any other
field is read). -/
def ctorInitState : ResponseState :=
  { statusCode := 0
    statusMessage := ""
    headers := []
    content := .vUndefined
    originalContent := .vUndefined
    charset := none
    version := ""
    cacheControl := none
    cookies := [] }

/-- Response constructor.  The class defines `setHeaders` twice and the
second definition shadows the first, so `this._headers` is never
assigned (`new Headers(headers)` is dead code) and the construction
chain `setStatus(status).setHeaders(headers).setContent(content)`
cannot complete: the second `setHeaders` reduces the header entries
with no initial value, so an empty headers object throws a TypeError
from `[].reduce`; a single-entry object makes `reduce` return that
entry without calling the callback, so the chained `.setContent` call
on the entry array throws; with two or more entries the callback calls
`this.setHeader`, which dereferences the undefined `_headers` and
throws.  The status is validated first, so an invalid status code still
raises its InvalidArgumentException before any of this, with the code
already assigned. -/
def construct (_content : JSValue) (status : Int)
    (headers : List (String × HVal)) : Except JSError ResponseState :=
  match setStatus ctorInitState status none with
  | (_, some e) => .error e
  | (_, none) =>
    match headers with
    | [] => .error (.typeError "Reduce of empty array with no initial value")
    | [_] => .error (.typeError "(intermediate value).setContent is not a function")
    | _ :: _ :: _ =>
      .error (.typeError "Cannot read properties of undefined (reading 'set')")
  -- the subsequent setContent, setProtocolVersion('1.0') and cookie-jar
  -- initialization are never reached

/-- JavaScript number as produced by `parseInt` and arithmetic on it:
either NaN or an integer. -/
inductive JSNum where
  | nan
  | int (n : Int)
deriving Repr, DecidableEq

/-- JavaScript `parseInt` on a string: optional whitespace and sign,
then leading decimal digits, NaN when there are none. -/
def parseIntStr (s : String) : JSNum :=
  let cs := s.data.dropWhile jsWhitespace
  let signed : Bool × List Char :=
    match cs with
    | '-' :: rest => (true, rest)
    | '+' :: rest => (false, rest)
    | _ => (false, cs)
  let ds := signed.2.takeWhile (fun c => c.isDigit)
  if ds = [] then .nan
  else
    .int ((if signed.1 then -1 else 1) *
      ds.foldl (fun n c => n * 10 + ((c.toNat : Int) - 48)) 0)

/-- JavaScript `parseInt` applied to a header read that may have
produced `null` (which coerces to the string "null", hence NaN). -/
def parseIntJS : Option String → JSNum
  | none => parseIntStr "null"
  | some s => parseIntStr s

/-- JavaScript subtraction on modelled numbers (NaN propagates). -/
def jsSub : JSNum → JSNum → JSNum
  | .int a, .int b => .int (a - b)
  | _, _ => .nan

/-- `Math.max(x, 0)` on a modelled number (`Math.max` of NaN is NaN). -/
def jsMaxZero : JSNum → JSNum
  | .nan => .nan
  | .int a => .int (max a 0)

/-- JavaScript `x > 0` where x may be `null`, NaN or a number (`null > 0`
and `NaN > 0` are both false). -/
def jsGtZero : Option JSNum → Bool
  | none => false
  | some .nan => false
  | some (.int a) => a > 0

/-- Truthiness of a cache-directive value. -/
def ccTruthy : CCVal → Bool
  | .flag => true
  | .num n => n ≠ 0
  | .str s => s ≠ ""

/-- Response.hasHeaderCacheControlDirective: `Map.has` on the private
`#headerCacheControl` field, which is `undefined` until the first
directive is added — reading it then throws a TypeError. -/
def hasCCDirective (r : ResponseState) (key : String) : Except JSError Bool :=
  match r.cacheControl with
  | none => .error (.typeError "Cannot read properties of undefined (reading 'has')")
  | some m => .ok ((m.find? (fun e => e.1 = key)).isSome)

/-- Response.getHeaderCacheControlDirective: `Map.get`, `undefined` for a
missing key, TypeError on the undefined map. -/
def getCCDirective (r : ResponseState) (key : String) :
    Except JSError (Option CCVal) :=
  match r.cacheControl with
  | none => .error (.typeError "Cannot read properties of undefined (reading 'get')")
  | some m => .ok ((m.find? (fun e => e.1 = key)).map (fun e => e.2))

/-- `Map.set`: replace in place or append, preserving insertion order. -/
def ccSet : List (String × CCVal) → String → CCVal → List (String × CCVal)
  | [], k, v => [(k, v)]
  | (k', v') :: rest, k, v =>
    if k' = k then (k', v) :: rest else (k', v') :: ccSet rest k v

/-- Response.getHeaderCacheControlHeader: reduce over the directive
entries with an empty initial accumulator.  Note that a directive whose
value is `true` contributes only the separator `", "` (its name is
dropped), and every entry, the first included, is prefixed with
`", "`. -/
def getHeaderCacheControlHeader (m : List (String × CCVal)) : String :=
  m.foldl (fun prev e =>
    match e.2 with
    | .flag => prev ++ ", "
    | v => prev ++ ", " ++ e.1 ++ "=" ++ ccValToString v) ""

/-- Response.addHeaderCacheControlDirective: create the directive map if
absent, set the entry, and re-serialize into the Cache-Control
header. -/
def addHeaderCacheControlDirective (r : ResponseState) (key : String)
    (value : CCVal) : Except JSError ResponseState :=
  let m := ccSet (r.cacheControl.getD []) key value
  setHeader { r with cacheControl := some m } "Cache-Control"
    (.str (getHeaderCacheControlHeader m))

/-- Response.removeCacheControlDirective: delete the entry if present
(TypeError when the map was never created), and re-serialize. -/
def removeCacheControlDirective (r : ResponseState) (key : String) :
    Except JSError ResponseState :=
  match r.cacheControl with
  | none => .error (.typeError "Cannot read properties of undefined (reading 'has')")
  | some m =>
    let m' := m.filter (fun e => e.1 ≠ key)
    setHeader { r with cacheControl := some m' } "Cache-Control"
      (.str (getHeaderCacheControlHeader m'))

/-- Response.setPublic.  The source calls
`this.removeHeaderCacheControlDirective('private')`, but the class
defines no method of that name (only `removeCacheControlDirective`
exists), so the call throws a TypeError before anything else happens. -/
def setPublic (_r : ResponseState) : Except JSError ResponseState :=
  .error (.typeError "this.removeHeaderCacheControlDirective is not a function")

/-- Response.setPrivate: same nonexistent-method call as `setPublic`. -/
def setPrivate (_r : ResponseState) : Except JSError ResponseState :=
  .error (.typeError "this.removeHeaderCacheControlDirective is not a function")

/-- Response.setImmutable: adds the directive when the flag is set;
clearing it calls the nonexistent `removeHeaderCacheControlDirective`
and throws. -/
def setImmutable (r : ResponseState) (immutable : Bool) :
    Except JSError ResponseState :=
  if immutable then addHeaderCacheControlDirective r "immutable" .flag
  else .error (.typeError "this.removeHeaderCacheControlDirective is not a function")

/-- Response.setMaxAge. -/
def setMaxAge (r : ResponseState) (value : CCVal) : Except JSError ResponseState :=
  addHeaderCacheControlDirective r "max-age" value

/-- Response.setStaleIfError. -/
def setStaleIfError (r : ResponseState) (value : CCVal) :
    Except JSError ResponseState :=
  addHeaderCacheControlDirective r "stale-if-error" value

/-- Response.setStaleWhileRevalidate. -/
def setStaleWhileRevalidate (r : ResponseState) (value : CCVal) :
    Except JSError ResponseState :=
  addHeaderCacheControlDirective r "stale-while-revalidate" value

/-- Response.setSharedMaxAge: `setPublic()` first (which throws on the
nonexistent method), then the s-maxage directive. -/
def setSharedMaxAge (r : ResponseState) (value : CCVal) :
    Except JSError ResponseState := do
  let r1 ← setPublic r
  addHeaderCacheControlDirective r1 "s-maxage" value

/-- Response.setEtag: a falsy etag removes the header; otherwise the
value is quoted if not already starting with a quote, and a weak etag
gets the `W/` prefix. -/
def setEtag (r : ResponseState) (etag : Option String) (weak : Bool) :
    Except JSError ResponseState :=
  match etag with
  | none => .ok (removeHeader r ["ETag"])
  | some e =>
    if e = "" then .ok (removeHeader r ["ETag"])
    else
      let e' := if strStartsWith e "\"" then e else "\"" ++ e ++ "\""
      setHeader r "ETag" (.str ((if weak then "W/" else "") ++ e'))

/-- Response.setLastModified: a falsy date removes the header, otherwise
the date's `toUTCString` rendering is stored. -/
def setLastModified (r : ResponseState) (date : Option String) :
    Except JSError ResponseState :=
  match date with
  | none => .ok (removeHeader r ["Last-Modified"])
  | some utc => setHeader r "Last-Modified" (.str utc)

/-- Response.getAge.  The guard in the source is inverted
(`if (!this._headers.has('Age'))`): when NO Age header exists it
returns `parseInt` of the absent header (`parseInt(null)`, i.e. NaN);
when an Age header DOES exist it evaluates
`this.getDate().getTime()`, but `getDate` returns a header string (or
`null`), which has no `getTime` method, so a TypeError is thrown. -/
def getAge (r : ResponseState) : Except JSError JSNum :=
  if !(hhas r.headers "Age") then
    .ok (parseIntJS (hget r.headers "Age"))
  else
    .error (.typeError "this.getDate(...).getTime is not a function")

/-- Response.getMaxAge: prefers `s-maxage`, then `max-age` (parsed with
`parseInt` from the directive value's string coercion); with neither, a
truthy Expires header leads to `this.getExpires().getTime()` on a
header string — a TypeError; absent all three the result is `null`.
Reading the directives before any directive was added dereferences the
undefined `#headerCacheControl` map and throws. -/
def getMaxAge (r : ResponseState) : Except JSError (Option JSNum) := do
  let hs ← hasCCDirective r "s-maxage"
  if hs then
    let v ← getCCDirective r "s-maxage"
    return some (parseIntJS (v.map ccValToString))
  else
    let hm ← hasCCDirective r "max-age"
    if hm then
      let v ← getCCDirective r "max-age"
      return some (parseIntJS (v.map ccValToString))
    else
      match hget r.headers "Expires" with
      | some e =>
        if e ≠ "" then
          throw (.typeError "this.getExpires(...).getTime is not a function")
        else return none
      | none => return none

/-- Response.getTtl:
`maxAge !== null ? Math.max(maxAge - this.getAge(), 0) : null`. -/
def getTtl (r : ResponseState) : Except JSError (Option JSNum) := do
  let maxAge ← getMaxAge r
  match maxAge with
  | none => return none
  | some m =>
    let age ← getAge r
    return some (jsMaxZero (jsSub m age))

/-- Response.isFresh: `this.getTtl() > 0`. -/
def isFresh (r : ResponseState) : Except JSError Bool := do
  let t ← getTtl r
  return jsGtZero t

/-- Response.isValidateable: a Last-Modified or ETag header is
present. -/
def isValidateable (r : ResponseState) : Bool :=
  hhas r.headers "Last-Modified" || hhas r.headers "ETag"

/-- Response.isCacheable.  Note the inverted guard: the source returns
false when the status IS in {200, 203, 300, 301, 302, 404, 410} (the
set Symfony treats as cacheable), instead of when it is not; past that
guard it returns false on `no-store` or a truthy `private` directive
(throwing when the directive map was never created), and otherwise
requires a validator or freshness. -/
def isCacheable (r : ResponseState) : Except JSError Bool := do
  if [200, 203, 300, 301, 302, 404, 410].contains r.statusCode then
    return false
  else
    let hns ← hasCCDirective r "no-store"
    if hns then
      return false
    else
      let pv ← getCCDirective r "private"
      if (pv.map ccTruthy).getD false then
        return false
      else
        if isValidateable r then return true
        else isFresh r

/-- Response.isInformational. -/
def isInformational (r : ResponseState) : Bool :=
  100 ≤ r.statusCode && r.statusCode < 200

/-- Response.isEmpty: status 204 or 304. -/
def isEmpty (r : ResponseState) : Bool :=
  r.statusCode = 204 || r.statusCode = 304

/-- Response.isResetContent: status 205. -/
def isResetContent (r : ResponseState) : Bool :=
  r.statusCode = 205

mutual

/-- JavaScript string coercion of a value (template-literal
interpolation): arrays join their elements with commas, plain objects
render "[object Object]", a buffer decodes its bytes (modelled
byte-per-character), a date renders its UTC string. -/
def jsValueToString : JSValue → String
  | .vNull => "null"
  | .vUndefined => "undefined"
  | .vStr s => s
  | .vNum n => toString n
  | .vBool b => if b then "true" else "false"
  | .vObj _ => "[object Object]"
  | .vArr es => String.intercalate "," (jsValueListToString es)
  | .vBuf bs => String.mk (bs.map Char.ofNat)
  | .vDate u => u

/-- String coercions of the elements of an array value. -/
def jsValueListToString : List JSValue → List String
  | [] => []
  | v :: rest => jsValueToString v :: jsValueListToString rest

end

/-- Cache-directive value built from a cache-option value as
`addHeaderCacheControlDirective` would store it (the bare boolean
`true` is the presence flag the serializer tests with
`value === true`). -/
def ccValOfJS : JSValue → CCVal
  | .vNum n => .num n
  | .vBool true => .flag
  | v => .str (jsValueToString v)

/-- Names of the class-level cache-directive table
`#HTTP_RESPONSE_CACHE_CONTROL_DIRECTIVES`, in declaration order. -/
def ccDirectiveNames : List String :=
  ["must_revalidate", "no_cache", "no_store", "no_transform", "public",
   "private", "proxy_revalidate", "max_age", "s_maxage", "stale_if_error",
   "stale_while_revalidate", "immutable", "last_modified", "etag"]

/-- Value flag of the cache-directive table: whether the directive takes
a value (`true`) or is a bare boolean directive (`false`). -/
def ccDirectiveHasValue : String → Bool
  | "max_age" => true
  | "s_maxage" => true
  | "stale_if_error" => true
  | "stale_while_revalidate" => true
  | "last_modified" => true
  | "etag" => true
  | _ => false

/-- Property read `options[key]` on a cache-options object (`undefined`
for a missing key). -/
def optGet (options : List (String × JSValue)) (key : String) : JSValue :=
  ((options.find? (fun e => e.1 = key)).map (fun e => e.2)).getD .vUndefined

/-- `Object.keys(options).includes(key)`. -/
def optHasKey (options : List (String × JSValue)) (key : String) : Bool :=
  (options.find? (fun e => e.1 = key)).isSome

/-- Response.setCache.  The validation computes the RECOGNIZED keys
missing from `options` (not the unrecognized keys present in it) and
throws when any recognized key is absent; unrecognized keys are never
checked.  When validation passes, each directive with a truthy option
value is applied: `etag`/`last_modified`/`max_age`/`s_maxage`/
`stale_while_revalidate`/`stale_if_error` through their setters (of
which `s_maxage` reaches the nonexistent
`removeHeaderCacheControlDirective` via `setPublic` and throws), then a
forEach over the directive table that, for any boolean directive with a
truthy option, calls `value.replace('_', '-')` on the boolean table
value `false` — a TypeError — and finally `public`/`private` through
`setPublic`/`setPrivate`. -/
def setCache (r : ResponseState) (options : List (String × JSValue)) :
    Except JSError ResponseState := do
  let diff := ccDirectiveNames.filter (fun k => !optHasKey options k)
  if diff ≠ [] then
    throw (.invalidArgument
      ("Response does not support the following options: \"" ++
        String.intercalate ", " diff ++ "\"."))
  else
    let r1 ← (if jsTruthy (optGet options "etag") then
        match optGet options "etag" with
        | .vStr s => setEtag r (some s) false
        | _ => throw (.typeError "etag.startsWith is not a function")
      else pure r)
    let r2 ← (if jsTruthy (optGet options "last_modified") then
        match optGet options "last_modified" with
        | .vDate u => setLastModified r1 (some u)
        | _ => throw (.typeError "date.toUTCString is not a function")
      else pure r1)
    let r3 ← (if jsTruthy (optGet options "max_age") then
        setMaxAge r2 (ccValOfJS (optGet options "max_age")) else pure r2)
    let r4 ← (if jsTruthy (optGet options "s_maxage") then
        setSharedMaxAge r3 (ccValOfJS (optGet options "s_maxage")) else pure r3)
    let r5 ← (if jsTruthy (optGet options "stale_while_revalidate") then
        setStaleWhileRevalidate r4 (ccValOfJS (optGet options "stale_while_revalidate"))
      else pure r4)
    let r6 ← (if jsTruthy (optGet options "stale_if_error") then
        setStaleIfError r5 (ccValOfJS (optGet options "stale_if_error")) else pure r5)
    let r7 ← (if ccDirectiveNames.any
          (fun k => !ccDirectiveHasValue k && jsTruthy (optGet options k)) then
        throw (.typeError "value.replace is not a function")
      else pure r6)
    let r8 ← (if jsTruthy (optGet options "public") then setPublic r7 else pure r7)
    let r9 ← (if jsTruthy (optGet options "private") then setPrivate r8 else pure r8)
    return r9

/-- Model of the bound Request, as far as `prepare` consults it.
Modelled from the spec: the Request source is not among the provided
files; spec §4.5 specifies `isFresh(response)` (conditional-request
matching, here an oracle for the response being prepared),
`isMethod('HEAD')`, `isSecure()`, and the `server` environment map
(consulted only for SERVER_PROTOCOL). -/
structure RequestModel where
  fresh : Bool
  isHead : Bool
  secure : Bool
  serverProtocol : Option String

/-- Falsiness of a header read (`!this.getHeader(...)`): `null` and the
empty string are falsy. -/
def headerFalsy : Option String → Bool
  | none => true
  | some s => s = ""

/-- Response.setContentType: a value containing a slash is used as the
media type, anything else is looked up as a file extension. -/
def setContentType (r : ResponseState) (value : String) :
    Except JSError ResponseState :=
  setHeader r "Content-Type"
    (.str (if value.data.contains '/' then value else mimeLookup value))

/-- UTF-8 encoding of one character. -/
def charUtf8Bytes (c : Char) : List Nat :=
  let n := c.toNat
  if n < 128 then [n]
  else if n < 2048 then [192 + n / 64, 128 + n % 64]
  else if n < 65536 then [224 + n / 4096, 128 + (n / 64) % 64, 128 + n % 64]
  else [240 + n / 262144, 128 + (n / 4096) % 64, 128 + (n / 64) % 64, 128 + n % 64]

/-- UTF-8 byte sequence of a string (`Buffer.from(s, charset)`; only the
UTF-8 charset — the one the repository itself introduces — is
modelled). -/
def strUtf8Bytes (s : String) : List Nat :=
  s.data.foldr (fun c acc => charUtf8Bytes c ++ acc) []

/-- UTF-8 byte length of a string (`Buffer.byteLength(s, charset)`). -/
def strByteLen (s : String) : Nat :=
  (strUtf8Bytes s).length

/-- Modelled from the spec: Response.secureCookies — set the secure flag
on every cookie in the jar and re-serialize the jar into the Set-Cookie
header (the `CookieCollection` source is not among the provided
files). -/
def secureCookies (r : ResponseState) (v : Bool) : Except JSError ResponseState :=
  let cookies := r.cookies.map (fun c => { c with secure := v })
  setHeader { r with cookies := cookies } "Set-Cookie"
    (.arr (cookies.map cookieSerialize))

/-- Content-Type inference at the start of `prepare`: switch on the
content's run-time shape, and only when the current Content-Type header
is falsy set it to the `html`, `bin` (buffers) or `json` type. -/
def inferContentType (r : ResponseState) : Except JSError ResponseState :=
  match jsTypeof r.content with
  | "string" =>
    if headerFalsy (getHeader r "Content-Type") then setContentType r "html" else .ok r
  | "object" | "number" | "boolean" =>
    if isBuffer r.content then
      if headerFalsy (getHeader r "Content-Type") then setContentType r "bin" else .ok r
    else
      if headerFalsy (getHeader r "Content-Type") then setContentType r "json" else .ok r
  | _ => .ok r

/-- Final steps of `prepare`: force protocol version 1.1 unless the
request's server environment declares HTTP/1.0, and secure the cookie
jar on a secure transport. -/
def finishPrepare (r : ResponseState) (req : RequestModel) :
    Except JSError ResponseState := do
  let r1 := if req.serverProtocol ≠ some "HTTP/1.0" then { r with version := "1.1" } else r
  if req.secure then secureCookies r1 true else pure r1

/-- Length/buffer-conversion step of `prepare`'s main branch: a buffer's
length is used directly; a string shorter than 1000 units whose ETag
need not be generated is measured with `Buffer.byteLength`; otherwise
the string is converted to its UTF-8 buffer (clearing the charset) and
the buffer is measured; any other defined content value reaches
`Buffer.byteLength`/`Buffer.from` with an unsupported type and throws a
TypeError. -/
def prepareLength (r : ResponseState) (generateETag : Bool) :
    Except JSError (ResponseState × Option Nat) :=
  match r.content with
  | .vUndefined => .ok (r, none)
  | .vBuf bs => .ok (r, some bs.length)
  | .vStr s =>
    if !generateETag && decide (s.data.length < 1000) then
      .ok (r, some (strByteLen s))
    else
      .ok ({ r with content := .vBuf (strUtf8Bytes s), charset := none },
        some (strUtf8Bytes s).length)
  | _ => .error (.typeError "The first argument must be of type string or an instance of Buffer")

/-- Response.prepare, the terminal normalization step: bind the request,
infer a Content-Type from the content's shape, force status 304 when
the request's freshness check succeeds (by direct field assignment,
bypassing validation), then branch on the status class — informational
or empty statuses drop the content (through `setContent(null)`) and the
three framing headers; 205 drops the content, pins Content-Length to
"0" and drops Transfer-Encoding; every other status reads the ETag
function from the application (throwing a LogicException when no
application resolver is set), defaults the charset to UTF-8, re-appends
a charset to a charset-less Content-Type, computes Content-Length,
generates an ETag when configured and none is present, removes
Content-Length when Transfer-Encoding is present, and drops the content
of a HEAD response — finally forcing the protocol version and securing
cookies on a secure transport. -/
def prepare (app : Option AppConfig) (r0 : ResponseState) (req : RequestModel) :
    Except JSError ResponseState := do
  let r1 ← inferContentType r0
  let r2 := if req.fresh then { r1 with statusCode := 304 } else r1
  if isInformational r2 || isEmpty r2 then
    let r3 ← setContent app r2 .vNull
    finishPrepare (removeHeader r3 ["Content-Type", "Content-Length", "Transfer-Encoding"]) req
  else if isResetContent r2 then
    let r3 ← setContent app r2 .vNull
    let r4 ← setHeader r3 "Content-Length" (.str "0")
    finishPrepare (removeHeader r4 ["Transfer-Encoding"]) req
  else
    match app with
    | none => throw (.logicError "Must set an Application resolver.")
    | some a =>
      let generateETag := !(hhas r2.headers "ETag") &&
        (match a.etagResolved with | .fn _ => true | .notFn => false)
      let r3 := { r2 with charset := some (r2.charset.getD "UTF-8") }
      let r4 ← (match getHeader r3 "Content-Type" with
        | some t =>
          if !containsCharsetFragment t then
            setContentType r3 (t ++ "; charset=" ++ r3.charset.getD "UTF-8")
          else pure r3
        | none => pure r3)
      let step ← prepareLength r4 generateETag
      let r6 ← (match step.2 with
        | some l => setHeader step.1 "Content-Length" (.str (toString l))
        | none => pure step.1)
      let r7 ← (if generateETag && step.2.isSome then
          match a.etagResolved with
          | .fn f =>
            let etag := f r6.content r6.charset
            if etag ≠ "" then setHeader r6 "ETag" (.str etag) else pure r6
          | .notFn => pure r6
        else pure r6)
      let r8 := if hhas r7.headers "Transfer-Encoding" then
          removeHeader r7 ["Content-Length"] else r7
      let r9 ← (if req.isHead then setContent (some a) r8 .vNull else pure r8)
      finishPrepare r9 req

/-- Application configuration used to instantiate theorems: no HTML
escaping (the default) and no usable ETag function. -/
def evalApp : AppConfig :=
  { jsonEscape := false, etagResolved := .notFn }

/-- Request model used to instantiate theorems: nothing fresh, GET, not
secure, HTTP/1.0 server protocol. -/
def evalReq : RequestModel :=
  { fresh := false, isHead := false, secure := false, serverProtocol := some "HTTP/1.0" }

/-- A 204 response carrying content and all three framing headers, built
through the response's own methods. -/
def noContentState : Except JSError ResponseState := do
  let r1 ← setStatusE baseState 204 none
  let r2 ← setHeader r1 "Content-Type" (.str "text/plain")
  let r3 ← setHeader r2 "Content-Length" (.str "5")
  let r4 ← setHeader r3 "Transfer-Encoding" (.str "chunked")
  setContent (some evalApp) r4 (.vStr "hello")

/-- The same response with status 205. -/
def resetContentState : Except JSError ResponseState := do
  let r1 ← noContentState
  setStatusE r1 205 none

/-- The same response with the informational status 100. -/
def informationalState : Except JSError ResponseState := do
  let r1 ← noContentState
  setStatusE r1 100 none

/-- A response with Cache-Control `max-age=60`, an Age header of 10 and
a Date header, built through the response's own methods. -/
def staleCheckState : Except JSError ResponseState := do
  let r1 ← setMaxAge baseState (.num 60)
  let r2 ← setHeader r1 "Age" (.str "10")
  setHeader r2 "Date" (.str "Tue, 01 Oct 2024 00:00:00 GMT")

/-- A 200 response carrying an ETag and no cache-control directives. -/
def cacheable200State : Except JSError ResponseState :=
  setEtag baseState (some "abc") false

/-- A cache-options object carrying every recognized key with a falsy
value. -/
def allFalsyOptions : List (String × JSValue) :=
  ccDirectiveNames.map (fun k => (k, JSValue.vBool false))

/-- Reading a name back from the header container directly after setting
it returns the value just stored. -/
theorem hget_hset_self (h : HeadersModel) (k v : String) :
    hget (hset h k v) k = some v := by
  induction h with
  | nil => simp [hset, hget]
  | cons e rest ih =>
    obtain ⟨k', v'⟩ := e
    by_cases he : k' = jsStrLower k
    · simp [hset, hget, he]
    · simpa [hset, hget, he] using ih

/-- C3: for every code in [100, 599] `setStatus` succeeds and the status
message becomes the registered text from the status registry, or
"unknown status" when the registry has no entry; for every code outside
that range `setStatus` raises an InvalidArgumentException (the spec's
ValidationError). -/
theorem setStatus_valid_iff (r : ResponseState) (c : Int) :
    (100 ≤ c ∧ c ≤ 599 →
      (setStatus r c none).2 = none ∧
      (setStatus r c none).1.statusMessage = (statusTexts c).getD "unknown status") ∧
    ((c < 100 ∨ c > 599) →
      ∃ msg, (setStatus r c none).2 = some (.invalidArgument msg)) := by
  constructor
  · intro h
    have hinv : isInvalid { r with statusCode := c } = false := by
      simp [isInvalid]
      omega
    simp [setStatus, hinv]
  · intro h
    have hinv : isInvalid { r with statusCode := c } = true := by
      simp [isInvalid]
      omega
    refine ⟨"The HTTP status code \"" ++ toString c ++ "\" is not valid.", ?_⟩
    simp [setStatus, hinv]

/-- Witness for `setStatus_valid_iff`: code 299 is accepted with message
"unknown status" (no registry entry), and code 600 is rejected. -/
theorem setStatus_valid_iff_witness :
    ((setStatus baseState 299 none).2 = none ∧
      (setStatus baseState 299 none).1.statusMessage = "unknown status") ∧
    (∃ msg, (setStatus baseState 600 none).2 = some (.invalidArgument msg)) := by
  refine ⟨?_, (setStatus_valid_iff baseState 600).2 (by omega)⟩
  have h := (setStatus_valid_iff baseState 299).1 (by omega)
  exact ⟨h.1, h.2⟩

/-- C10: when `setStatus` is called with a code outside [100, 599] it
reports an error, but the stored status code has already been
overwritten with the invalid code, while the status message is left
unchanged — a caller that catches the exception observes an invalid
status on the object. -/
theorem setStatus_mutates_before_throw (r : ResponseState) (c : Int)
    (h : c < 100 ∨ c > 599) :
    (setStatus r c none).2.isSome ∧
    (setStatus r c none).1.statusCode = c ∧
    (setStatus r c none).1.statusMessage = r.statusMessage ∧
    isInvalid (setStatus r c none).1 = true := by
  have hinv : isInvalid { r with statusCode := c } = true := by
    simp [isInvalid]
    omega
  refine ⟨?_, ?_, ?_, ?_⟩
  · simp [setStatus, hinv]
  · simp [setStatus, hinv]
  · simp [setStatus, hinv]
  · simp [setStatus, hinv]

/-- Witness for `setStatus_mutates_before_throw` at code 999. -/
theorem setStatus_mutates_before_throw_witness :
    (999 < 100 ∨ 999 > 599) ∧
    ((setStatus baseState 999 none).2.isSome ∧
      (setStatus baseState 999 none).1.statusCode = 999 ∧
      (setStatus baseState 999 none).1.statusMessage = baseState.statusMessage ∧
      isInvalid (setStatus baseState 999 none).1 = true) :=
  ⟨by omega, setStatus_mutates_before_throw baseState 999 (by omega)⟩

/-- C7: setting Content-Type (a) to a string value without a charset
fragment whose media-type part has a charset in the lookup table stores
the value with `; charset=` and the lower-cased charset appended, and
records the charset on the response; (b) to a string value that already
contains a charset fragment stores it unmodified; (c) to an array value
raises an InvalidArgumentException (the spec's ValidationError). -/
theorem setHeader_contentType_spec :
    (∀ (r : ResponseState) (v cs : String),
      containsCharsetFragment v = false →
      charsetLookup (mediaTypePart v) = some cs →
      ∃ r', setHeader r "Content-Type" (.str v) = .ok r' ∧
        getHeader r' "Content-Type" = some (v ++ "; charset=" ++ jsStrLower cs) ∧
        r'.charset = some cs) ∧
    (∀ (r : ResponseState) (v : String),
      containsCharsetFragment v = true →
      ∃ r', setHeader r "Content-Type" (.str v) = .ok r' ∧
        getHeader r' "Content-Type" = some v ∧
        r'.charset = r.charset) ∧
    (∀ (r : ResponseState) (ss : List String),
      setHeader r "Content-Type" (.arr ss) =
        .error (.invalidArgument "Content-Type cannot be set to an Array")) := by
  have hkey : jsStrLower "Content-Type" = "content-type" := by decide
  refine ⟨?_, ?_, ?_⟩
  · intro r v cs h1 h2
    have hs : setHeader r "Content-Type" (.str v) = .ok
        { r with charset := some cs,
                 headers := hset r.headers "Content-Type"
                   (v ++ "; charset=" ++ jsStrLower cs) } := by
      simp [setHeader, hkey, h1, h2]
    exact ⟨_, hs, hget_hset_self .., rfl⟩
  · intro r v h1
    have hs : setHeader r "Content-Type" (.str v) = .ok
        { r with headers := hset r.headers "Content-Type" v } := by
      simp [setHeader, hkey, h1]
    exact ⟨_, hs, hget_hset_self .., rfl⟩
  · intro r ss
    simp [setHeader, hkey]

/-- Witness for `setHeader_contentType_spec`: setting Content-Type to
"text/plain" yields the stored value "text/plain; charset=utf-8",
setting "text/html; charset=iso-8859-1" stores it unmodified, and an
array raises the error. -/
theorem setHeader_contentType_spec_witness :
    (containsCharsetFragment "text/plain" = false ∧
      charsetLookup (mediaTypePart "text/plain") = some "UTF-8" ∧
      ∃ r', setHeader baseState "Content-Type" (.str "text/plain") = .ok r' ∧
        getHeader r' "Content-Type" = some "text/plain; charset=utf-8" ∧
        r'.charset = some "UTF-8") ∧
    (containsCharsetFragment "text/html; charset=iso-8859-1" = true ∧
      ∃ r', setHeader baseState "Content-Type" (.str "text/html; charset=iso-8859-1") = .ok r' ∧
        getHeader r' "Content-Type" = some "text/html; charset=iso-8859-1" ∧
        r'.charset = baseState.charset) ∧
    setHeader baseState "Content-Type" (.arr ["text/plain", "text/html"]) =
      .error (.invalidArgument "Content-Type cannot be set to an Array") := by
  refine ⟨⟨by decide, by decide, ?_⟩, ⟨by decide, ?_⟩, ?_⟩
  · exact setHeader_contentType_spec.1 baseState "text/plain" "UTF-8" (by decide) (by decide)
  · exact setHeader_contentType_spec.2.1 baseState "text/html; charset=iso-8859-1" (by decide)
  · exact setHeader_contentType_spec.2.2 baseState ["text/plain", "text/html"]

/-- C1 (refuted — code bug): construction never succeeds.  With the
default empty headers object it throws a TypeError from
`[].reduce` with no initial value (for every content shape and valid
status); with one header entry, `reduce` returns the entry and the
chained `setContent` call throws; with two or more entries, `setHeader`
dereferences the never-assigned `_headers` field and throws.  The claim
that construction succeeds, validates the status, assigns headers and
content in order and leaves an empty cookie jar is refuted at the very
input the claim names. -/
theorem construct_eval :
    construct (.vStr "") 200 [] =
      .error (.typeError "Reduce of empty array with no initial value") ∧
    construct (.vObj [("a", .vNum 1)]) 200 [] =
      .error (.typeError "Reduce of empty array with no initial value") ∧
    construct (.vStr "") 204 [] =
      .error (.typeError "Reduce of empty array with no initial value") ∧
    construct (.vStr "") 200 [("X-Foo", .str "1")] =
      .error (.typeError "(intermediate value).setContent is not a function") ∧
    construct (.vStr "") 200 [("X-Foo", .str "1"), ("X-Bar", .str "2")] =
      .error (.typeError "Cannot read properties of undefined (reading 'set')") :=
  ⟨rfl, rfl, rfl, rfl, rfl⟩

/-- C2 (refuted — code bug): after `prepare`, a 204 (or 1xx) response
does lose its Content-Type, Content-Length and Transfer-Encoding
headers, and a 205 response gets Content-Length "0" without
Transfer-Encoding — but the content is NOT dropped to an empty body:
`setContent(null)` serializes `null` to JSON (because
`typeof null === 'object'`), leaving the four-character body "null". -/
theorem prepare_framing_eval :
    (noContentState.bind (fun r => prepare (some evalApp) r evalReq)).map
        (fun r => (r.content, getHeader r "Content-Type",
          getHeader r "Content-Length", getHeader r "Transfer-Encoding",
          r.statusCode))
      = .ok (.vStr "null", none, none, none, 204) ∧
    (resetContentState.bind (fun r => prepare (some evalApp) r evalReq)).map
        (fun r => (r.content, getHeader r "Content-Length",
          getHeader r "Transfer-Encoding"))
      = .ok (.vStr "null", some "0", none) ∧
    (informationalState.bind (fun r => prepare (some evalApp) r evalReq)).map
        (fun r => (r.content, getHeader r "Content-Type",
          getHeader r "Content-Length", getHeader r "Transfer-Encoding"))
      = .ok (.vStr "null", none, none, none) :=
  ⟨rfl, rfl, rfl⟩

/-- C4 (refuted — code bug): with no Age header, `getAge` returns NaN
(`parseInt(null)`) instead of now minus the Date header, because the
presence check is inverted; with Cache-Control `max-age=60` and an Age
header of 10, `getAge` — and hence `getTtl` — throws a TypeError
(`getTime` called on the Date header string) instead of returning
50. -/
theorem getAge_getTtl_eval :
    getAge baseState = .ok .nan ∧
    staleCheckState.bind getTtl =
      .error (.typeError "this.getDate(...).getTime is not a function") ∧
    staleCheckState.bind getAge =
      .error (.typeError "this.getDate(...).getTime is not a function") :=
  ⟨rfl, rfl, rfl⟩

/-- C5 (refuted — code bug): a 200 response carrying an ETag, with
neither `no-store` nor `private`, is reported NOT cacheable, because
the status guard is inverted (it returns false for statuses IN
{200, 203, 300, 301, 302, 404, 410}); a 404 likewise returns false
without consulting directives, and a status outside the set throws a
TypeError when no directive was ever added (the directive map is still
undefined). -/
theorem isCacheable_eval :
    cacheable200State.bind isCacheable = .ok false ∧
    isCacheable { baseState with statusCode := 404 } = .ok false ∧
    isCacheable { baseState with statusCode := 201 } =
      .error (.typeError "Cannot read properties of undefined (reading 'has')") :=
  ⟨rfl, rfl, rfl⟩

/-- C6 (refuted — code bug): `setContent(null)` does not store the empty
string — `typeof null` is `"object"`, so `null` takes the JSON branch
and the stored content is the string "null" (or, with no application
resolver configured, the call throws); only `undefined` reaches the
`value ?? ''` fallback.  An ordinary object is serialized to its JSON
text as claimed. -/
theorem setContent_null_eval :
    setContent (some evalApp) baseState .vNull =
      .ok { baseState with content := .vStr "null", originalContent := .vNull } ∧
    setContent none baseState .vNull =
      .error (.invalidArgument "Must set an Application resolver.") ∧
    setContent (some evalApp) baseState .vUndefined =
      .ok { baseState with content := .vStr "", originalContent := .vUndefined } ∧
    setContent (some evalApp) baseState (.vObj [("a", .vNum 1)]) =
      .ok { baseState with
              content := .vStr "\x7b\"a\":1\x7d"
              originalContent := .vObj [("a", .vNum 1)] } :=
  ⟨rfl, rfl, rfl, rfl⟩

/-- C8 (refuted — code bug): the Cache-Control serializer drops the name
of every boolean directive (rendering only the `", "` separator) and
prefixes every entry, the first included, with `", "`, so the header
never equals the claimed comma-joined `name`/`name=value` list;
moreover the derived helpers `setPublic`/`setPrivate` throw a TypeError
because they call the nonexistent method
`removeHeaderCacheControlDirective`. -/
theorem cacheControl_serialization_eval :
    (addHeaderCacheControlDirective baseState "public" .flag).map
        (fun r => getHeader r "Cache-Control") = .ok (some ", ") ∧
    (setMaxAge baseState (.num 60)).map (fun r => getHeader r "Cache-Control")
      = .ok (some ", max-age=60") ∧
    ((setMaxAge baseState (.num 60)).bind
        (fun r => setStaleWhileRevalidate r (.num 30))).map
        (fun r => getHeader r "Cache-Control")
      = .ok (some ", max-age=60, stale-while-revalidate=30") ∧
    setPublic baseState =
      .error (.typeError "this.removeHeaderCacheControlDirective is not a function") ∧
    setPrivate baseState =
      .error (.typeError "this.removeHeaderCacheControlDirective is not a function") :=
  ⟨rfl, rfl, rfl, rfl, rfl⟩

/-- C9 (refuted — code bug): `setCache` validation is inverted — it
throws whenever any RECOGNIZED key is missing from the options (listing
the missing keys), so an options object with a single supported key, or
an empty one, is rejected; while an options object carrying all
fourteen recognized keys plus an unrecognized key passes validation
(unrecognized keys are never checked). -/
theorem setCache_validation_eval :
    setCache baseState [("etag", .vStr "abc")] =
      .error (.invalidArgument
        ("Response does not support the following options: " ++
         "\"must_revalidate, no_cache, no_store, no_transform, public, " ++
         "private, proxy_revalidate, max_age, s_maxage, stale_if_error, " ++
         "stale_while_revalidate, immutable, last_modified\".")) ∧
    setCache baseState [] =
      .error (.invalidArgument
        ("Response does not support the following options: " ++
         "\"must_revalidate, no_cache, no_store, no_transform, public, " ++
         "private, proxy_revalidate, max_age, s_maxage, stale_if_error, " ++
         "stale_while_revalidate, immutable, last_modified, etag\".")) ∧
    setCache baseState (allFalsyOptions ++ [("unknown_option", .vStr "x")]) =
      .ok baseState :=
  ⟨rfl, rfl, rfl⟩
